import Mathlib

/-!
Verification development for the scoringbasket backend: a shallow embedding of
the live game-event ledger, validation gate, statistics aggregator, game state
machine and the routes that drive them, together with theorems settling the
specification claims against this embedding.

The embedding mirrors `backend/models.py`, `backend/services.py`,
`backend/routes.py`, `backend/routes_games.py` and
`backend/app/services_games.py`.  Python runtime failures that the source can
raise (an undefined name, a missing attribute, an invalid constructor keyword,
an HTTPException) are modelled explicitly with the `PyError` type, so every
embedded operation is a total Lean function returning `Except PyError _`.
-/

deriving instance DecidableEq for Except

/-- Runtime outcomes of the Python code that are not ordinary return values:
`nameError` models a `NameError` (an undefined global such as `GameRoster`),
`attributeError` models an `AttributeError` (a missing ORM column such as
`GameEvent.player_id`), `typeError` models a `TypeError` (an invalid keyword
argument passed to a model constructor), `httpError` models a raised
`HTTPException` with status code and detail, and `exn` models a plain
`raise Exception(msg)`. -/
inductive PyError where
  | nameError (name : String)
  | attributeError (name : String)
  | typeError (kw : String)
  | httpError (code : Nat) (detail : String)
  | exn (msg : String)
deriving DecidableEq, Repr

/-- `backend/models.py` `Team`: the columns the embedded operations read. -/
structure Team where
  id : Nat
  owner_id : Option Nat
deriving DecidableEq, Repr

/-- `backend/models.py` `Player`: the columns the embedded operations read. -/
structure Player where
  id : Nat
  team_id : Nat
deriving DecidableEq, Repr

/-- `backend/models.py` `Game`: the columns the embedded operations read.
`ended_at` and `timeout_started_at` are abstracted to the booleans
`ended_stamped` and `timeout_started_stamped` (whether the column holds a
timestamp); wall-clock values are outside the embedding. -/
structure Game where
  id : Nat
  home_team_id : Nat
  away_team_id : Nat
  home_score : Int
  away_score : Int
  status : String
  created_by : Option Nat
  timeout_active : Bool
  timeout_started_stamped : Bool
  ended_stamped : Bool
deriving DecidableEq, Repr

/-- `backend/models.py` `GameEvent`: the columns the embedded operations read.
The model has a nullable `user_id` column (and no `player_id` column). -/
structure GameEvent where
  id : Nat
  game_id : Nat
  user_id : Option Nat
  team_id : Nat
  event_type : String
  period : Int
  timestamp : Option Int
  outcome : Option String
deriving DecidableEq, Repr

/-- The thirteen statistical counters accumulated per player by
`GameService.finalize_game` in `backend/app/services_games.py` and persisted
into `PlayerGameStats` (`backend/models.py`); the row's timestamp columns are
outside the embedding. -/
structure PStats where
  points : Nat
  assists : Nat
  rebounds : Nat
  fouls : Nat
  violations : Nat
  shots_made : Nat
  shots_attempted : Nat
  two_pointers_made : Nat
  two_pointers_attempted : Nat
  three_pointers_made : Nat
  three_pointers_attempted : Nat
  free_throws_made : Nat
  free_throws_attempted : Nat
deriving DecidableEq, Repr

/-- The all-zero counter record installed when `finalize_game` first sees a
player (`player_stats[event.user_id] = {...0...}`). -/
def statsInit : PStats :=
  ⟨0, 0, 0, 0, 0, 0, 0, 0, 0, 0, 0, 0, 0⟩

/-- The relational store the services read and write: the `teams`, `players`,
`games`, `game_events` and `player_game_stats` tables.  `player_game_stats`
rows are keyed by `(player_id, game_id)` as in the upsert of `finalize_game`.
`users` holds the ids of the `users` table rows; `next_event_id` models the
autoincrement primary key of `game_events`. -/
structure DB where
  users : List Nat
  teams : List Team
  players : List Player
  games : List Game
  events : List GameEvent
  player_game_stats : List ((Nat × Nat) × PStats)
  next_event_id : Nat
deriving DecidableEq, Repr

/-- `db.query(Team).filter(Team.id == team_id).first()` -/
def DB.findTeam (db : DB) (team_id : Nat) : Option Team :=
  db.teams.find? (fun t => t.id = team_id)

/-- `db.query(Player).filter(Player.id == player_id).first()` -/
def DB.findPlayer (db : DB) (player_id : Nat) : Option Player :=
  db.players.find? (fun p => p.id = player_id)

/-- `db.query(Game).filter(Game.id == game_id).first()` -/
def DB.findGame (db : DB) (game_id : Nat) : Option Game :=
  db.games.find? (fun g => g.id = game_id)

/-- `db.query(GameEvent).filter(GameEvent.game_id == game_id).all()` -/
def DB.gameEvents (db : DB) (game_id : Nat) : List GameEvent :=
  db.events.filter (fun e => e.game_id = game_id)

/-- The event types of `backend/services.py` `validate_event` that require a
player (`player_required_events`). -/
def player_required_events : List String :=
  ["2PT", "3PT", "FT", "AST", "REB", "FLS", "SUB"]

/-- The fixed event-type vocabulary of `backend/services.py` `validate_event`
(`valid_events`). -/
def valid_events : List String :=
  ["2PT", "3PT", "FT", "AST", "REB", "FLS", "SUB", "TO", "PERIOD_START", "PERIOD_END"]

/-- `EventValidationService.validate_event` from `backend/services.py`
(lines 298-368), check for check in source order.  The branch for event types
requiring a player reaches `db.query(GameRoster)` (line 342); `GameRoster` is
neither defined in `backend/models.py` nor imported by `backend/services.py`
(line 10 imports only `Team, Player, Game, GameEvent`), so evaluating that
expression raises `NameError: GameRoster`, modelled as
`.error (.nameError "GameRoster")`. -/
def EventValidationService.validate_event (db : DB) (game_id : Nat)
    (player_id : Option Nat) (team_id : Nat) (event_type : String)
    (period : Int) : Except PyError (Bool × String) :=
  match db.findGame game_id with
  | none => .ok (false, "Game not found")
  | some game =>
    if game.status ≠ "active" then
      .ok (false, "Game is " ++ game.status ++ ", not active")
    else if period < 1 ∨ period > 5 then
      .ok (false, "Period must be between 1 and 5")
    else
      match db.findTeam team_id with
      | none => .ok (false, "Team not found")
      | some _ =>
        if ¬ (game.home_team_id = team_id ∨ game.away_team_id = team_id) then
          .ok (false, "Team is not in this game")
        else if event_type ∈ player_required_events then
          match player_id with
          | none => .ok (false, "Event type " ++ event_type ++ " requires a player")
          | some pid =>
            match db.findPlayer pid with
            | none => .ok (false, "Player not found")
            | some _ =>
              -- `roster = db.query(GameRoster)...` : `GameRoster` is undefined
              .error (.nameError "GameRoster")
        else if event_type ∉ valid_events then
          .ok (false, "Invalid event type: " ++ event_type)
        else
          .ok (true, "")

/-- `EventValidationService.validate_shot_outcome` from `backend/services.py`
(lines 370-382).  `outcome` is `Optional[str]`; a `None` outcome renders as
`None` inside the f-string of the rejection message. -/
def EventValidationService.validate_shot_outcome (event_type : String)
    (outcome : Option String) : Bool × String :=
  if event_type ∈ ["2PT", "3PT", "FT"] then
    if outcome = some "made" ∨ outcome = some "miss" then
      (true, "")
    else
      (false, "Shot event must have outcome \x27made\x27 or \x27miss\x27, got \x27"
        ++ (match outcome with | some o => o | none => "None") ++ "\x27")
  else
    (true, "")

/-- `StatsCalculationService.calculate_points` from `backend/services.py`
(lines 17-39): the query filter mentions `GameEvent.player_id`; `GameEvent`
(`backend/models.py` lines 245-265) has a `user_id` column and no `player_id`
column, so the attribute access raises `AttributeError` before any row is
read. -/
def StatsCalculationService.calculate_points (_db : DB) (_game_id _player_id : Nat) :
    Except PyError Int :=
  .error (.attributeError "player_id")

/-- `StatsCalculationService.calculate_percentage` from `backend/services.py`
(lines 58-63).  Python float arithmetic and `round(x, 1)` are abstracted to
exact rational arithmetic rounded to the nearest multiple of `1/10`. -/
def StatsCalculationService.calculate_percentage (made attempts : Nat) : ℚ :=
  if attempts = 0 then 0
  else (round (((made : ℚ) / attempts * 100) * 10) : ℤ) / 10

/-- `StatsCalculationService.get_player_stats` from `backend/services.py`
(lines 95-158): after the `Player` lookup it evaluates `db.query(GameRoster)`
(line 106); `GameRoster` is neither defined in `backend/models.py` nor
imported by `backend/services.py`, so the call raises `NameError` before any
statistic is computed; the rich stats dictionary of the source is therefore
never produced and its success payload is modelled as `Unit`. -/
def StatsCalculationService.get_player_stats (db : DB) (_game_id : Nat)
    (player_id : Nat) : Except PyError (Option Unit) :=
  match db.findPlayer player_id with
  | none => .ok none
  | some _ => .error (.nameError "GameRoster")

/-- `StatsCalculationService.get_team_stats` from `backend/services.py`
(lines 160-208): after the `Team` and `Game` lookups it evaluates
`db.query(GameRoster)` (line 175); `GameRoster` is undefined, so the call
raises `NameError` before any per-player fold runs; the team stats dictionary
is never produced and its success payload is modelled as `Unit`. -/
def StatsCalculationService.get_team_stats (db : DB) (game_id team_id : Nat) :
    Except PyError (Option Unit) :=
  match db.findTeam team_id with
  | none => .ok none
  | some _ =>
    match db.findGame game_id with
    | none => .ok none
    | some _ => .error (.nameError "GameRoster")

/-- Request body of `POST /api/games/{game_id}/events` in `backend/routes.py`:
`GameEventCreate` from `backend/schemas.py` (lines 110-117). -/
structure GameEventCreateA where
  player_id : Option Nat
  team_id : Nat
  event_type : String
  period : Int
  timestamp : Option Int
  outcome : Option String
deriving DecidableEq, Repr

/-- Request body of `POST /api/games/games/{game_id}/events` in
`backend/routes_games.py`: `GameEventCreate` from `backend/schemas_games.py`
(lines 226-233). -/
structure GameEventCreateG where
  user_id : Option Nat
  team_id : Nat
  event_type : String
  period : Int
  timestamp : Int
  outcome : Option String
deriving DecidableEq, Repr

/-- `record_event` from `backend/routes.py` (lines 277-322): runs
`validate_event`, then (for shot types) `validate_shot_outcome`, and only then
constructs the row.  The constructor call `GameEvent(game_id=...,
player_id=event.player_id, ...)` passes the keyword `player_id`, which is not
a column of `GameEvent` (`backend/models.py` defines `user_id`), so the
declarative constructor raises `TypeError` and no row is ever inserted. -/
def record_event (db : DB) (game_id : Nat) (ev : GameEventCreateA) :
    Except PyError (DB × GameEvent) :=
  match EventValidationService.validate_event db game_id ev.player_id ev.team_id
      ev.event_type ev.period with
  | .error e => .error e
  | .ok (is_valid, msg) =>
    if ¬ is_valid then .error (.httpError 400 msg)
    else
      let oc :=
        if ev.event_type ∈ ["2PT", "3PT", "FT"] then
          EventValidationService.validate_shot_outcome ev.event_type ev.outcome
        else (true, "")
      if ¬ oc.1 then .error (.httpError 400 oc.2)
      else
        -- `GameEvent(..., player_id=event.player_id, ...)` raises TypeError
        .error (.typeError "player_id")

/-- `undo_event` from `backend/routes.py` (lines 325-344): looks the event up
by `(id, game_id)` and deletes the row outright (primary keys are unique, so
deletion removes exactly the rows carrying that id). -/
def undo_event (db : DB) (game_id event_id : Nat) : Except PyError DB :=
  match db.events.find? (fun e => e.id = event_id ∧ e.game_id = game_id) with
  | none => .error (.httpError 404 "Event not found")
  | some _ => .ok { db with events := db.events.filter (fun e => ¬ e.id = event_id) }

/-- `GameService.add_match_event` from `backend/app/services_games.py`
(lines 644-673): constructs and inserts a `GameEvent` row unconditionally and
returns it. -/
def GameService.add_match_event (db : DB) (match_id : Nat) (user_id : Option Nat)
    (team_id : Nat) (event_type : String) (timestamp : Int) (period : Int)
    (outcome : Option String) : DB × GameEvent :=
  let e : GameEvent :=
    ⟨db.next_event_id, match_id, user_id, team_id, event_type, period,
      some timestamp, outcome⟩
  ({ db with events := db.events ++ [e], next_event_id := db.next_event_id + 1 }, e)

/-- `add_game_event` from `backend/routes_games.py` (lines 993-1016): checks
only that the game exists, then calls `add_match_event`; no call to
`validate_event` or `validate_shot_outcome` occurs on this path. -/
def add_game_event (db : DB) (game_id : Nat) (ev : GameEventCreateG) :
    Except PyError (DB × GameEvent) :=
  match db.findGame game_id with
  | none => .error (.httpError 404 "Game not found")
  | some _ =>
    .ok (GameService.add_match_event db game_id ev.user_id ev.team_id
      ev.event_type ev.timestamp ev.period ev.outcome)

/-- `GameService.update_match_score` from `backend/app/services_games.py`
(lines 622-638): overwrites both score columns of the matching game row. -/
def GameService.update_match_score (db : DB) (match_id : Nat)
    (home_score away_score : Int) : Except PyError DB :=
  match db.findGame match_id with
  | none => .error (.exn "Game not found")
  | some _ =>
    .ok { db with games := db.games.map (fun g =>
      if g.id = match_id then { g with home_score := home_score, away_score := away_score }
      else g) }

/-- Request body of `POST /api/games/games/{game_id}/score` in
`backend/routes_games.py`: a raw dict read at keys `home_score` and
`away_score`. -/
structure ScoreData where
  home_score : Int
  away_score : Int
deriving DecidableEq, Repr

/-- `update_game_score` from `backend/routes_games.py` (lines 1035-1059):
404 when the game is missing; 403 with the timeout-specific detail when
`timeout_active` is set, leaving the store untouched; otherwise delegates to
`update_match_score`.  The two consecutive lookups of the same game row in the
source are collapsed into one. -/
def update_game_score (db : DB) (game_id : Nat) (score_data : ScoreData) :
    Except PyError DB :=
  match db.findGame game_id with
  | none => .error (.httpError 404 "Game not found")
  | some g =>
    if g.timeout_active then
      .error (.httpError 403 "Scoring is disabled during timeout")
    else
      GameService.update_match_score db game_id score_data.home_score score_data.away_score

/-- The authorization predicate of `manage_game_timeout`
(`backend/routes_games.py` lines 1076-1080): creator of the game, or owner of
either participating team; each `x and int(x) == int(user.id)` guard keeps
Python truthiness, under which an id of `0` is falsy. -/
def isGameAdmin (db : DB) (g : Game) (uid : Nat) : Bool :=
  let is_game_creator :=
    match g.created_by with
    | some c => c ≠ 0 && c = uid
    | none => false
  let is_home_team_admin :=
    match db.findTeam g.home_team_id with
    | some t => match t.owner_id with
      | some o => o ≠ 0 && o = uid
      | none => false
    | none => false
  let is_away_team_admin :=
    match db.findTeam g.away_team_id with
    | some t => match t.owner_id with
      | some o => o ≠ 0 && o = uid
      | none => false
    | none => false
  is_game_creator || is_home_team_admin || is_away_team_admin

/-- `manage_game_timeout` from `backend/routes_games.py` (lines 1062-1098):
after the existence and authorization checks, `action == "start"` sets the
timeout flag and stamps its start, `action == "revoke"` clears both, anything
else is a 400. -/
def manage_game_timeout (db : DB) (game_id : Nat) (action : Option String)
    (current_user : Nat) : Except PyError DB :=
  match db.findGame game_id with
  | none => .error (.httpError 404 "Game not found")
  | some g =>
    if ¬ isGameAdmin db g current_user then
      .error (.httpError 403 "Not authorized to manage timeout for this game")
    else if action = some "start" then
      .ok { db with games := db.games.map (fun x =>
        if x.id = game_id then { x with timeout_active := true, timeout_started_stamped := true }
        else x) }
    else if action = some "revoke" then
      .ok { db with games := db.games.map (fun x =>
        if x.id = game_id then { x with timeout_active := false, timeout_started_stamped := false }
        else x) }
    else
      .error (.httpError 400 "Invalid action. Use \x27start\x27 or \x27revoke\x27")

/-- The event types counted as fouls by `GameService.finalize_game`
(`backend/app/services_games.py` lines 1041-1044): `FLS` plus eight
explicitly enumerated `FOUL_` subtypes. -/
def foul_event_types : List String :=
  ["FLS", "FOUL_BLOCKING", "FOUL_CHARGING", "FOUL_HOLDING", "FOUL_PUSHING",
   "FOUL_HAND_CHECKING", "FOUL_ILLEGAL_SCREEN", "FOUL_ELBOWING", "FOUL_SHOOTING"]

/-- The event types counted as violations by `GameService.finalize_game`
(`backend/app/services_games.py` line 1046): two explicitly enumerated
`VIOLATION_` subtypes. -/
def violation_event_types : List String :=
  ["VIOLATION_TRAVELING", "VIOLATION_DOUBLE_DRIBBLE"]

/-- The per-event branch of the accumulation loop of
`GameService.finalize_game` (`backend/app/services_games.py` lines
1012-1047), applied to the stats record of the acting player. -/
def accumEvent (stats : PStats) (e : GameEvent) : PStats :=
  if e.event_type = "2PT" then
    let s := { stats with shots_attempted := stats.shots_attempted + 1,
                          two_pointers_attempted := stats.two_pointers_attempted + 1 }
    if e.outcome = some "made" then
      { s with points := s.points + 2, shots_made := s.shots_made + 1,
               two_pointers_made := s.two_pointers_made + 1 }
    else s
  else if e.event_type = "3PT" then
    let s := { stats with shots_attempted := stats.shots_attempted + 1,
                          three_pointers_attempted := stats.three_pointers_attempted + 1 }
    if e.outcome = some "made" then
      { s with points := s.points + 3, shots_made := s.shots_made + 1,
               three_pointers_made := s.three_pointers_made + 1 }
    else s
  else if e.event_type = "FT" then
    let s := { stats with free_throws_attempted := stats.free_throws_attempted + 1 }
    if e.outcome = some "made" then
      { s with points := s.points + 1, free_throws_made := s.free_throws_made + 1 }
    else s
  else if e.event_type = "AST" then
    { stats with assists := stats.assists + 1 }
  else if e.event_type = "REB" then
    { stats with rebounds := stats.rebounds + 1 }
  else if e.event_type ∈ foul_event_types then
    { stats with fouls := stats.fouls + 1 }
  else if e.event_type ∈ violation_event_types then
    { stats with violations := stats.violations + 1 }
  else
    stats

/-- `find`-based lookup in an association list keyed by `κ`, modelling a
`.filter(key == k).first()` query over a keyed store. -/
def lookupA {κ : Type} [DecidableEq κ] (l : List (κ × PStats)) (k : κ) :
    Option PStats :=
  (l.find? (fun r => r.1 = k)).map (fun r => r.2)

/-- Update-if-exists-else-append on an association list: the upsert discipline
of `finalize_game` (existence check, then in-place update of the first match,
else insert at the end). -/
def upsertA {κ : Type} [DecidableEq κ] :
    List (κ × PStats) → κ → PStats → List (κ × PStats)
  | [], k, s => [(k, s)]
  | r :: rs, k, s => if r.1 = k then (k, s) :: rs else r :: upsertA rs k s

/-- The accumulation loop of `GameService.finalize_game`
(`backend/app/services_games.py` lines 989-1047): events lacking an acting
user are skipped; otherwise the player's record (zero-initialised on first
sight) is updated by `accumEvent`.  Insertion order is first occurrence. -/
def buildPlayerStats (acc : List (Nat × PStats)) :
    List GameEvent → List (Nat × PStats)
  | [] => acc
  | e :: es =>
    match e.user_id with
    | none => buildPlayerStats acc es
    | some u =>
      buildPlayerStats (upsertA acc u (accumEvent ((lookupA acc u).getD statsInit) e)) es

/-- `GameService.finalize_game` from `backend/app/services_games.py`
(lines 972-1092): folds the game's full event list into per-player counters,
upserts one `PlayerGameStats` row per player touched (update-if-exists, else
insert), then sets the game status to `completed` and stamps `ended_at`. -/
def GameService.finalize_game (db : DB) (game_id : Nat) : Except PyError DB :=
  match db.findGame game_id with
  | none => .error (.exn "Game not found")
  | some _ =>
    let events := db.gameEvents game_id
    let player_stats := buildPlayerStats [] events
    let pgs := player_stats.foldl
      (fun store r => upsertA store (r.1, game_id) r.2) db.player_game_stats
    .ok { db with
      player_game_stats := pgs,
      games := db.games.map (fun g =>
        if g.id = game_id then { g with status := "completed", ended_stamped := true }
        else g) }

/-- Career aggregates returned by `GameService.get_player_stats`
(`backend/app/services_games.py` lines 1094-1152); the rational fields
abstract the Python floats, with `round(x, 2)` as rounding to the nearest
multiple of `1/100`. -/
structure CareerStats where
  total_games : Nat
  total_points : Nat
  total_assists : Nat
  total_rebounds : Nat
  total_fouls : Nat
  total_violations : Nat
  total_shots_made : Nat
  total_shots_attempted : Nat
  average_points_per_game : ℚ
  career_shooting_percentage : ℚ
deriving DecidableEq, Repr

/-- `GameService.get_player_stats` from `backend/app/services_games.py`
(lines 1094-1152): raises when the user row is missing; returns the all-zero
aggregate when the player has no `PlayerGameStats` rows; otherwise sums every
persisted row, with both per-game average and shooting percentage guarded to
`0.0` on a zero denominator. -/
def GameService.get_player_stats (db : DB) (player_id : Nat) :
    Except PyError CareerStats :=
  if player_id ∉ db.users then .error (.exn "Player not found")
  else
    let rows := (db.player_game_stats.filter (fun r => r.1.1 = player_id)).map (fun r => r.2)
    if rows = [] then
      .ok ⟨0, 0, 0, 0, 0, 0, 0, 0, 0, 0⟩
    else
      let total_points : Nat := (rows.map (fun s => s.points)).sum
      let total_assists : Nat := (rows.map (fun s => s.assists)).sum
      let total_rebounds : Nat := (rows.map (fun s => s.rebounds)).sum
      let total_fouls : Nat := (rows.map (fun s => s.fouls)).sum
      let total_violations : Nat := (rows.map (fun s => s.violations)).sum
      let total_shots_made : Nat := (rows.map (fun s => s.shots_made)).sum
      let total_shots_attempted : Nat := (rows.map (fun s => s.shots_attempted)).sum
      let total_games : Nat := rows.length
      let average_ppg : ℚ :=
        if total_games > 0 then (total_points : ℚ) / total_games else 0
      let shooting_pct : ℚ :=
        if total_shots_attempted > 0 then
          (total_shots_made : ℚ) / total_shots_attempted * 100
        else 0
      .ok ⟨total_games, total_points, total_assists, total_rebounds, total_fouls,
        total_violations, total_shots_made, total_shots_attempted,
        (round (average_ppg * 100) : ℤ) / 100,
        (round (shooting_pct * 100) : ℤ) / 100⟩

/-- Fixture for claim C1: two teams, one rostered player, one game still in
status `scheduled` (a status `validate_event` rejects), empty ledger. -/
def dbC1 : DB :=
  ⟨[7, 9], [⟨1, some 9⟩, ⟨2, some 8⟩], [⟨7, 1⟩],
   [⟨1, 1, 2, 0, 0, "scheduled", some 9, false, false, false⟩], [], [], 1⟩

/-- The `schemas_games.GameEventCreate` payload used for claim C1. -/
def evC1 : GameEventCreateG := ⟨some 7, 1, "2PT", 1, 0, some "made"⟩

/-- Fixture for claim C2: an `active` game whose ledger already holds six
`FOUL_SHOOTING` events for user 7 (appendable through `add_game_event`, which
does not validate). -/
def dbC2 : DB :=
  ⟨[7, 9], [⟨1, some 9⟩, ⟨2, some 8⟩], [⟨7, 1⟩],
   [⟨1, 1, 2, 0, 0, "active", some 9, false, false, false⟩],
   [⟨1, 1, some 7, 1, "FOUL_SHOOTING", 1, some 10, none⟩,
    ⟨2, 1, some 7, 1, "FOUL_SHOOTING", 1, some 20, none⟩,
    ⟨3, 1, some 7, 1, "FOUL_SHOOTING", 1, some 30, none⟩,
    ⟨4, 1, some 7, 1, "FOUL_SHOOTING", 2, some 10, none⟩,
    ⟨5, 1, some 7, 1, "FOUL_SHOOTING", 2, some 20, none⟩,
    ⟨6, 1, some 7, 1, "FOUL_SHOOTING", 2, some 30, none⟩], [], 7⟩

/-- Fixture for claim C3, accepted side: a game in status `active`. -/
def dbC3a : DB :=
  ⟨[9], [⟨1, some 9⟩, ⟨2, some 8⟩], [],
   [⟨1, 1, 2, 0, 0, "active", some 9, false, false, false⟩], [], [], 1⟩

/-- Fixture for claim C3, rejected side: the same game in status
`in_progress`, the live status used by `GameService` and documented on the
`Game` model. -/
def dbC3b : DB :=
  ⟨[9], [⟨1, some 9⟩, ⟨2, some 8⟩], [],
   [⟨1, 1, 2, 0, 0, "in_progress", some 9, false, false, false⟩], [], [], 1⟩

/-- Fixture for claim C4: an `in_progress` game whose ledger holds one
`FOUL_TECHNICAL` event (a `FOUL_`-prefixed subtype that `finalize_game` does
not enumerate) attributed to user 7. -/
def dbC4 : DB :=
  ⟨[7, 9], [⟨1, some 9⟩, ⟨2, some 8⟩], [⟨7, 1⟩],
   [⟨1, 1, 2, 0, 0, "in_progress", some 9, false, false, false⟩],
   [⟨1, 1, some 7, 1, "FOUL_TECHNICAL", 1, some 10, none⟩], [], 2⟩

/-- Fixture for claim C6: an `in_progress` game with one made two-pointer by
user 7 of team 1 — the scenario in which the spec expects team points 2. -/
def dbC6 : DB :=
  ⟨[7, 9], [⟨1, some 9⟩, ⟨2, some 8⟩], [⟨7, 1⟩],
   [⟨1, 1, 2, 0, 0, "in_progress", some 9, false, false, false⟩],
   [⟨1, 1, some 7, 1, "2PT", 1, some 10, some "made"⟩], [], 2⟩

/-- Fixture for claim C8: one appended made two-pointer, about to be undone. -/
def dbC8 : DB :=
  ⟨[7, 9], [⟨1, some 9⟩, ⟨2, some 8⟩], [⟨7, 1⟩],
   [⟨1, 1, 2, 0, 0, "active", some 9, false, false, false⟩],
   [⟨1, 1, some 7, 1, "2PT", 1, some 10, some "made"⟩], [], 2⟩

/-- Fixture for claim C10: an `active` game, valid participating team 5,
existing player 3 on that team — every precondition of the actor path of
`validate_event` satisfied. -/
def dbC10 : DB :=
  ⟨[3], [⟨5, some 9⟩, ⟨6, none⟩], [⟨3, 5⟩],
   [⟨2, 5, 6, 0, 0, "active", none, false, false, false⟩], [], [], 1⟩

/-- Claim C1, counterexample: the `routes_games.py` append operation
`add_game_event` inserts a `GameEvent` row for a proposed event that
`validate_event` rejects (the game is `scheduled`, not active), so an exposed
operation appends an unvalidated event. -/
theorem claim_C1_counterexample :
    EventValidationService.validate_event dbC1 1 (some 7) 1 "2PT" 1
      = .ok (false, "Game is scheduled, not active")
    ∧ add_game_event dbC1 1 evC1
      = .ok ({ dbC1 with
                events := [⟨1, 1, some 7, 1, "2PT", 1, some 0, some "made"⟩],
                next_event_id := 2 },
             ⟨1, 1, some 7, 1, "2PT", 1, some 0, some "made"⟩) := by decide

/-- Claim C2: evaluating the code at the claim scenario. With six
`FOUL_SHOOTING` events already recorded for player 7, a seventh
`FOUL_SHOOTING` is rejected by `validate_event` as an invalid event type —
not with a disqualification reason — because `FOUL_`-prefixed subtypes are
outside its vocabulary; a seventh foul proposed as `FLS` (the only foul type
the disqualification guard covers) raises `NameError` at the roster lookup
before the guard can run; and `add_game_event` appends the seventh
`FOUL_SHOOTING` to the ledger with no check at all. -/
theorem claim_C2 :
    EventValidationService.validate_event dbC2 1 (some 7) 1 "FOUL_SHOOTING" 1
      = .ok (false, "Invalid event type: FOUL_SHOOTING")
    ∧ EventValidationService.validate_event dbC2 1 (some 7) 1 "FLS" 1
      = .error (.nameError "GameRoster")
    ∧ (add_game_event dbC2 1 ⟨some 7, 1, "FOUL_SHOOTING", 2, 40, none⟩).isOk
      = true := by decide

/-- Claim C3, counterexample: a game whose status is the literal
`in_progress` is rejected by `validate_event` ("Game is in_progress, not
active"), while a game whose status is the literal `active` is accepted —
so acceptance is not tied to the status `in_progress` named by the claim. -/
theorem claim_C3_counterexample :
    EventValidationService.validate_event dbC3b 1 none 1 "TO" 1
      = .ok (false, "Game is in_progress, not active")
    ∧ EventValidationService.validate_event dbC3a 1 none 1 "TO" 1
      = .ok (true, "") := by decide

/-- Claim C4, counterexample: finalizing a game whose only event is a
`FOUL_TECHNICAL` (a `FOUL_`-prefixed subtype not among the eight enumerated
by `finalize_game`) leaves the acting player's foul counter — and every other
counter — at zero, contradicting "every FOUL_-prefixed event one foul". -/
theorem claim_C4_counterexample :
    GameService.finalize_game dbC4 1
      = .ok { dbC4 with
          player_game_stats := [((7, 1), statsInit)],
          games := [⟨1, 1, 2, 0, 0, "completed", some 9, false, false, true⟩] }
    ∧ statsInit.fouls = 0 := by decide

/-- Claim C6: evaluating the code at the claim scenario. With a made
two-pointer on the ledger, the live team stats read does not return team
points 2: `get_team_stats` raises `NameError` at `db.query(GameRoster)`
(line 175 of `backend/services.py`; `GameRoster` is undefined), and the
per-player points fold it relies on would itself raise `AttributeError`
because `GameEvent` has no `player_id` column. -/
theorem claim_C6 :
    StatsCalculationService.get_team_stats dbC6 1 1
      = .error (.nameError "GameRoster")
    ∧ StatsCalculationService.calculate_points dbC6 1 7
      = .error (.attributeError "player_id") := by decide

/-- Claim C8: evaluating the code at the claim scenario. `undo_event` does
remove the appended event row from the ledger, but the live per-player
statistics read raises `NameError` (undefined `GameRoster`) both before the
deletion and after it, so there is no live-statistic value to decrease by the
event's contribution or to restore on re-append. -/
theorem claim_C8 :
    undo_event dbC8 1 1 = .ok { dbC8 with events := [] }
    ∧ StatsCalculationService.get_player_stats dbC8 1 7
      = .error (.nameError "GameRoster")
    ∧ StatsCalculationService.get_player_stats { dbC8 with events := [] } 1 7
      = .error (.nameError "GameRoster") := by decide

/-- Claim C10: evaluating the code at the failing input. On the actor path —
an existing `active` game, a participating team, an existing player, event
type `2PT` — `validate_event` does not return an `(is_valid, message)` pair:
it raises `NameError` because the roster record type `GameRoster` it
references is neither defined in `backend/models.py` nor imported by
`backend/services.py`.  On a path that needs no actor the same function
returns a pair, confirming the failure is specific to the roster lookup. -/
theorem claim_C10 :
    EventValidationService.validate_event dbC10 2 (some 3) 5 "2PT" 1
      = .error (.nameError "GameRoster")
    ∧ EventValidationService.validate_event dbC10 2 none 5 "TO" 1
      = .ok (true, "") := by decide

theorem lookupA_upsertA_self {κ : Type} [DecidableEq κ]
    (l : List (κ × PStats)) (k : κ) (s : PStats) :
    lookupA (upsertA l k s) k = some s := by
  induction l with
  | nil => simp [upsertA, lookupA]
  | cons r rs ih =>
    by_cases h : r.1 = k
    · simp [upsertA, h, lookupA]
    · simpa [upsertA, h, lookupA] using ih

theorem lookupA_upsertA_ne {κ : Type} [DecidableEq κ]
    (l : List (κ × PStats)) (k' k : κ) (s : PStats) (h : k' ≠ k) :
    lookupA (upsertA l k' s) k = lookupA l k := by
  induction l with
  | nil => simp [upsertA, lookupA, h]
  | cons r rs ih =>
    by_cases hr : r.1 = k'
    · simp [upsertA, hr, lookupA, h, List.find?]
    · by_cases hk : r.1 = k
      · simp [upsertA, hr, lookupA, hk, Ne.symm h]
      · simpa [upsertA, hr, lookupA, hk] using ih

theorem upsertA_keys {κ : Type} [DecidableEq κ]
    (l : List (κ × PStats)) (k : κ) (s : PStats) :
    (upsertA l k s).map Prod.fst =
      if k ∈ l.map Prod.fst then l.map Prod.fst else l.map Prod.fst ++ [k] := by
  induction l with
  | nil => simp [upsertA]
  | cons r rs ih =>
    by_cases h : r.1 = k
    · simp [upsertA, h]
    · have h' : ¬ k = r.1 := fun hk => h hk.symm
      by_cases hm : k ∈ rs.map Prod.fst
      · simp [upsertA, h, ih, hm, h']
      · simp [upsertA, h, ih, hm, h']

theorem upsertA_eq_self {κ : Type} [DecidableEq κ]
    (l : List (κ × PStats)) (k : κ) (s : PStats) (h : lookupA l k = some s) :
    upsertA l k s = l := by
  induction l with
  | nil => simp [lookupA] at h
  | cons r rs ih =>
    by_cases hr : r.1 = k
    · obtain ⟨k₀, s₀⟩ := r
      simp only at hr
      subst hr
      simp [lookupA, List.find?] at h
      simp [upsertA, h]
    · simp only [lookupA, List.find?] at h
      rw [show (decide (r.1 = k)) = false by simp [hr]] at h
      simp only [upsertA, if_neg hr]
      rw [ih h]

theorem lookupA_eq_none_iff {κ : Type} [DecidableEq κ]
    (l : List (κ × PStats)) (k : κ) :
    lookupA l k = none ↔ k ∉ l.map Prod.fst := by
  induction l with
  | nil => simp [lookupA]
  | cons r rs ih =>
    by_cases h : r.1 = k
    · simp [lookupA, List.find?, h]
    · have h' : ¬ k = r.1 := fun hk => h hk.symm
      simp only [lookupA, List.find?] at *
      rw [show (decide (r.1 = k)) = false by simp [h]]
      simpa [h'] using ih

theorem lookupA_of_mem {κ : Type} [DecidableEq κ]
    (l : List (κ × PStats)) (k : κ) (s : PStats)
    (hnd : (l.map Prod.fst).Nodup) (hm : (k, s) ∈ l) :
    lookupA l k = some s := by
  induction l with
  | nil => simp at hm
  | cons r rs ih =>
    rcases List.mem_cons.mp hm with h | h
    · subst h
      simp [lookupA, List.find?]
    · have hnd' := (List.nodup_cons.mp hnd).2
      have hne : r.1 ≠ k := by
        intro hk
        exact (List.nodup_cons.mp hnd).1 (hk ▸ List.mem_map_of_mem Prod.fst h)
      simp only [lookupA, List.find?]
      rw [show (decide (r.1 = k)) = false by simp [hne]]
      exact ih hnd' h

theorem buildPlayerStats_filter (acc : List (Nat × PStats)) (es : List GameEvent) :
    buildPlayerStats acc es
      = buildPlayerStats acc (es.filter (fun e => e.user_id.isSome)) := by
  induction es generalizing acc with
  | nil => rfl
  | cons e es ih =>
    cases h : e.user_id with
    | none => simp [buildPlayerStats, h, List.filter, ih]
    | some u => simp [buildPlayerStats, h, List.filter, ih]

theorem buildPlayerStats_lookup (es : List GameEvent) (acc : List (Nat × PStats))
    (u : Nat) :
    lookupA (buildPlayerStats acc es) u =
      match lookupA acc u with
      | some s => some ((es.filter (fun e => e.user_id = some u)).foldl accumEvent s)
      | none =>
        if es.filter (fun e => e.user_id = some u) = [] then none
        else some ((es.filter (fun e => e.user_id = some u)).foldl accumEvent statsInit) := by
  induction es generalizing acc with
  | nil =>
    cases h : lookupA acc u <;> simp [buildPlayerStats, h]
  | cons e es ih =>
    cases h : e.user_id with
    | none =>
      have hf : (e :: es).filter (fun x => x.user_id = some u)
          = es.filter (fun x => x.user_id = some u) := by
        simp [List.filter_cons, h]
      rw [hf, show buildPlayerStats acc (e :: es) = buildPlayerStats acc es from by
        simp [buildPlayerStats, h]]
      exact ih acc
    | some v =>
      by_cases hv : v = u
      · subst hv
        have hf : (e :: es).filter (fun x => x.user_id = some v)
            = e :: es.filter (fun x => x.user_id = some v) := by
          simp [List.filter_cons, h]
        rw [hf, show buildPlayerStats acc (e :: es)
            = buildPlayerStats (upsertA acc v (accumEvent ((lookupA acc v).getD statsInit) e)) es
          from by simp [buildPlayerStats, h]]
        rw [ih, lookupA_upsertA_self]
        cases hl : lookupA acc v <;> simp [hl]
      · have hf : (e :: es).filter (fun x => x.user_id = some u)
            = es.filter (fun x => x.user_id = some u) := by
          simp [List.filter_cons, h, hv]
        rw [hf, show buildPlayerStats acc (e :: es)
            = buildPlayerStats (upsertA acc v (accumEvent ((lookupA acc v).getD statsInit) e)) es
          from by simp [buildPlayerStats, h]]
        rw [ih, lookupA_upsertA_ne _ v u _ hv]

theorem buildPlayerStats_keys_nodup (es : List GameEvent)
    (acc : List (Nat × PStats)) (h : (acc.map Prod.fst).Nodup) :
    ((buildPlayerStats acc es).map Prod.fst).Nodup := by
  induction es generalizing acc with
  | nil => exact h
  | cons e es ih =>
    cases hu : e.user_id with
    | none => simpa [buildPlayerStats, hu] using ih acc h
    | some u =>
      simp only [buildPlayerStats, hu]
      refine ih _ ?_
      rw [upsertA_keys]
      by_cases hm : u ∈ acc.map Prod.fst
      · simpa [hm] using h
      · rw [if_neg hm]
        exact h.append (List.nodup_singleton u)
          (by simpa [List.disjoint_singleton] using hm)

theorem lookupA_foldUpsert_not_mem (ps : List (Nat × PStats))
    (store : List ((Nat × Nat) × PStats)) (gid u : Nat)
    (h : u ∉ ps.map Prod.fst) :
    lookupA (ps.foldl (fun st r => upsertA st (r.1, gid) r.2) store) (u, gid)
      = lookupA store (u, gid) := by
  induction ps generalizing store with
  | nil => rfl
  | cons r rs ih =>
    have h1 : r.1 ≠ u := fun hr => h (by simp [hr])
    have h2 : u ∉ rs.map Prod.fst := fun hm => h (by simp [hm])
    rw [List.foldl_cons, ih _ h2,
      lookupA_upsertA_ne _ (r.1, gid) (u, gid) _ (by simp [h1])]

theorem lookupA_foldUpsert_mem (ps : List (Nat × PStats))
    (store : List ((Nat × Nat) × PStats)) (gid u : Nat) (s : PStats)
    (hnd : (ps.map Prod.fst).Nodup) (hm : (u, s) ∈ ps) :
    lookupA (ps.foldl (fun st r => upsertA st (r.1, gid) r.2) store) (u, gid)
      = some s := by
  induction ps generalizing store with
  | nil => simp at hm
  | cons r rs ih =>
    rcases List.mem_cons.mp hm with h | h
    · subst h
      rw [List.foldl_cons,
        lookupA_foldUpsert_not_mem _ _ _ _ (List.nodup_cons.mp hnd).1,
        lookupA_upsertA_self]
    · rw [List.foldl_cons]
      exact ih _ (List.nodup_cons.mp hnd).2 h

theorem foldUpsert_fixpoint (ps : List (Nat × PStats))
    (store : List ((Nat × Nat) × PStats)) (gid : Nat)
    (h : ∀ r ∈ ps, lookupA store (r.1, gid) = some r.2) :
    ps.foldl (fun st r => upsertA st (r.1, gid) r.2) store = store := by
  induction ps with
  | nil => rfl
  | cons r rs ih =>
    rw [List.foldl_cons, upsertA_eq_self _ _ _ (h r (List.mem_cons_self r rs))]
    exact ih (fun x hx => h x (List.mem_cons_of_mem r hx))

theorem find?_game_map (l : List Game) (f : Game → Game)
    (hid : ∀ g, (f g).id = g.id) (gid : Nat) :
    (l.map f).find? (fun g => g.id = gid)
      = (l.find? (fun g => g.id = gid)).map f := by
  rw [List.find?_map]
  have : ((fun g : Game => decide (g.id = gid)) ∘ f)
      = (fun g : Game => decide (g.id = gid)) := by
    funext g
    simp [Function.comp, hid]
  rw [this]

theorem map_idem_of_idem {α : Type} (f : α → α) (hf : ∀ x, f (f x) = f x)
    (l : List α) : (l.map f).map f = l.map f := by
  induction l with
  | nil => rfl
  | cons x xs ih => simp [hf, ih]

theorem accumEvent_fields (s : PStats) (e : GameEvent) :
    accumEvent s e =
      { points := s.points +
          (if e.event_type = "2PT" ∧ e.outcome = some "made" then 2
           else if e.event_type = "3PT" ∧ e.outcome = some "made" then 3
           else if e.event_type = "FT" ∧ e.outcome = some "made" then 1 else 0),
        assists := s.assists + (if e.event_type = "AST" then 1 else 0),
        rebounds := s.rebounds + (if e.event_type = "REB" then 1 else 0),
        fouls := s.fouls + (if e.event_type ∈ foul_event_types then 1 else 0),
        violations := s.violations +
          (if e.event_type ∈ violation_event_types then 1 else 0),
        shots_made := s.shots_made +
          (if (e.event_type = "2PT" ∨ e.event_type = "3PT") ∧ e.outcome = some "made"
           then 1 else 0),
        shots_attempted := s.shots_attempted +
          (if e.event_type = "2PT" ∨ e.event_type = "3PT" then 1 else 0),
        two_pointers_made := s.two_pointers_made +
          (if e.event_type = "2PT" ∧ e.outcome = some "made" then 1 else 0),
        two_pointers_attempted := s.two_pointers_attempted +
          (if e.event_type = "2PT" then 1 else 0),
        three_pointers_made := s.three_pointers_made +
          (if e.event_type = "3PT" ∧ e.outcome = some "made" then 1 else 0),
        three_pointers_attempted := s.three_pointers_attempted +
          (if e.event_type = "3PT" then 1 else 0),
        free_throws_made := s.free_throws_made +
          (if e.event_type = "FT" ∧ e.outcome = some "made" then 1 else 0),
        free_throws_attempted := s.free_throws_attempted +
          (if e.event_type = "FT" then 1 else 0) } := by
  by_cases h1 : e.event_type = "2PT"
  · by_cases hm : e.outcome = some "made" <;>
      simp [accumEvent, h1, hm, foul_event_types, violation_event_types]
  · by_cases h2 : e.event_type = "3PT"
    · by_cases hm : e.outcome = some "made" <;>
        simp [accumEvent, h1, h2, hm, foul_event_types, violation_event_types]
    · by_cases h3 : e.event_type = "FT"
      · by_cases hm : e.outcome = some "made" <;>
          simp [accumEvent, h1, h2, h3, hm, foul_event_types, violation_event_types]
      · by_cases h4 : e.event_type = "AST"
        · simp [accumEvent, h1, h2, h3, h4, foul_event_types, violation_event_types]
        · by_cases h5 : e.event_type = "REB"
          · simp [accumEvent, h1, h2, h3, h4, h5, foul_event_types, violation_event_types]
          · by_cases h6 : e.event_type ∈ foul_event_types
            · have h6d := h6
              simp only [foul_event_types, List.mem_cons, List.mem_singleton,
                List.not_mem_nil, or_false] at h6d
              rcases h6d with hv | hv | hv | hv | hv | hv | hv | hv | hv <;>
                simp [accumEvent, hv, foul_event_types, violation_event_types]
            · by_cases h7 : e.event_type ∈ violation_event_types
              · have h7d := h7
                simp only [violation_event_types, List.mem_cons, List.mem_singleton,
                  List.not_mem_nil, or_false] at h7d
                rcases h7d with hv | hv <;>
                  simp [accumEvent, hv, foul_event_types, violation_event_types]
              · simp [accumEvent, h1, h2, h3, h4, h5, h6, h7]

theorem foldl_accumEvent_closed (l : List GameEvent) (s : PStats) :
    l.foldl accumEvent s =
      { points := s.points +
          (2 * l.countP (fun e => e.event_type = "2PT" ∧ e.outcome = some "made")
           + 3 * l.countP (fun e => e.event_type = "3PT" ∧ e.outcome = some "made")
           + l.countP (fun e => e.event_type = "FT" ∧ e.outcome = some "made")),
        assists := s.assists + l.countP (fun e => e.event_type = "AST"),
        rebounds := s.rebounds + l.countP (fun e => e.event_type = "REB"),
        fouls := s.fouls + l.countP (fun e => e.event_type ∈ foul_event_types),
        violations := s.violations
          + l.countP (fun e => e.event_type ∈ violation_event_types),
        shots_made := s.shots_made
          + l.countP (fun e =>
              (e.event_type = "2PT" ∨ e.event_type = "3PT") ∧ e.outcome = some "made"),
        shots_attempted := s.shots_attempted
          + l.countP (fun e => e.event_type = "2PT" ∨ e.event_type = "3PT"),
        two_pointers_made := s.two_pointers_made
          + l.countP (fun e => e.event_type = "2PT" ∧ e.outcome = some "made"),
        two_pointers_attempted := s.two_pointers_attempted
          + l.countP (fun e => e.event_type = "2PT"),
        three_pointers_made := s.three_pointers_made
          + l.countP (fun e => e.event_type = "3PT" ∧ e.outcome = some "made"),
        three_pointers_attempted := s.three_pointers_attempted
          + l.countP (fun e => e.event_type = "3PT"),
        free_throws_made := s.free_throws_made
          + l.countP (fun e => e.event_type = "FT" ∧ e.outcome = some "made"),
        free_throws_attempted := s.free_throws_attempted
          + l.countP (fun e => e.event_type = "FT") } := by
  induction l generalizing s with
  | nil => simp
  | cons e l ih =>
    rw [List.foldl_cons, ih, accumEvent_fields]
    simp only [PStats.mk.injEq, List.countP_cons, decide_eq_true_eq]
    refine ⟨?_, ?_, ?_, ?_, ?_, ?_, ?_, ?_, ?_, ?_, ?_, ?_, ?_⟩ <;>
      split_ifs <;> first | omega | (exfalso; simp_all)

/-- Claim C1 (amended): in `backend/routes.py`, `record_event` consults
`validate_event` before any insert and turns every rejection into a 400 with
the validation reason — indeed no call of `record_event` ever completes an
insert, because after validation it passes the invalid `player_id` keyword to
the `GameEvent` constructor — while `add_game_event` in
`backend/routes_games.py` appends an event row for every existing game with
no validation at all.  So validated-append holds on the `routes.py` path
only; the `routes_games.py` path appends unvalidated events. -/
theorem claim_C1 :
    (∀ db game_id ev, (record_event db game_id ev).isOk = false)
    ∧ (∀ db game_id ev msg,
        EventValidationService.validate_event db game_id ev.player_id ev.team_id
          ev.event_type ev.period = .ok (false, msg) →
        record_event db game_id ev = .error (.httpError 400 msg))
    ∧ (∀ db game_id ev g, db.findGame game_id = some g →
        ∃ e, add_game_event db game_id ev
          = .ok ({ db with
                    events := db.events ++ [e]
                    next_event_id := db.next_event_id + 1 }, e)) := by
  refine ⟨?_, ?_, ?_⟩
  · intro db game_id ev
    cases h : EventValidationService.validate_event db game_id ev.player_id
        ev.team_id ev.event_type ev.period with
    | error err => simp [record_event, h, Except.isOk, Except.toBool]
    | ok p =>
      obtain ⟨b, msg⟩ := p
      cases b
      · simp [record_event, h, Except.isOk, Except.toBool]
      · simp only [record_event, h, Except.isOk, Except.toBool]
        split_ifs <;> simp
  · intro db game_id ev msg h
    simp [record_event, h]
  · intro db game_id ev g h
    exact ⟨⟨db.next_event_id, game_id, ev.user_id, ev.team_id, ev.event_type,
      ev.period, some ev.timestamp, ev.outcome⟩,
      by simp [add_game_event, h, GameService.add_match_event]⟩

/-- Witness for claim C1: at the concrete scheduled-game state, the validated
path rejects with the validation reason, and the unvalidated path appends. -/
theorem claim_C1_witness :
    record_event dbC1 1 ⟨some 7, 1, "2PT", 1, none, some "made"⟩
      = .error (.httpError 400 "Game is scheduled, not active")
    ∧ ∃ e, add_game_event dbC1 1 evC1
        = .ok ({ dbC1 with
                  events := dbC1.events ++ [e]
                  next_event_id := dbC1.next_event_id + 1 }, e) :=
  ⟨claim_C1.2.1 dbC1 1 ⟨some 7, 1, "2PT", 1, none, some "made"⟩
      "Game is scheduled, not active" (by decide),
   claim_C1.2.2 dbC1 1 evC1
      ⟨1, 1, 2, 0, 0, "scheduled", some 9, false, false, false⟩ (by decide)⟩

/-- Claim C3 (amended): `validate_event` accepts only when the target game
exists and its status is the literal `active` (the live status of the
`services.py` state machine, whose vocabulary is `pending`/`active`/
`completed`); for a game in any other status — `scheduled`, `completed`, and
even `in_progress`, the live status used by the `GameService` stack — it
rejects with the reason `"Game is <status>, not active"`. -/
theorem claim_C3 :
    (∀ db game_id player_id team_id event_type period s,
      EventValidationService.validate_event db game_id player_id team_id
        event_type period = .ok (true, s) →
      ∃ g, db.findGame game_id = some g ∧ g.status = "active")
    ∧ (∀ db game_id player_id team_id event_type period g,
        db.findGame game_id = some g → g.status ≠ "active" →
        EventValidationService.validate_event db game_id player_id team_id
          event_type period
          = .ok (false, "Game is " ++ g.status ++ ", not active")) := by
  constructor
  · intro db game_id player_id team_id event_type period s h
    cases hg : db.findGame game_id with
    | none =>
      simp only [EventValidationService.validate_event, hg] at h
      exact absurd h (by simp)
    | some g =>
      refine ⟨g, rfl, ?_⟩
      by_cases hs : g.status = "active"
      · exact hs
      · simp only [EventValidationService.validate_event, hg, if_pos hs] at h
        exact absurd h (by simp)
  · intro db game_id player_id team_id event_type period g hg hs
    simp only [EventValidationService.validate_event, hg]
    rw [if_pos hs]

/-- Witness for claim C3: acceptance at status `active`, rejection at status
`in_progress`, at concrete states. -/
theorem claim_C3_witness :
    (∃ g, dbC3a.findGame 1 = some g ∧ g.status = "active")
    ∧ EventValidationService.validate_event dbC3b 1 none 1 "TO" 1
        = .ok (false, "Game is " ++ "in_progress" ++ ", not active") :=
  ⟨claim_C3.1 dbC3a 1 none 1 "TO" 1 "" (by decide),
   claim_C3.2 dbC3b 1 none 1 "TO" 1
     ⟨1, 1, 2, 0, 0, "in_progress", some 9, false, false, false⟩
     (by decide) (by decide)⟩

/-- The per-game update applied by `manage_game_timeout` on `revoke`. -/
theorem findGame_map_update (db : DB) (f : Game → Game)
    (hid : ∀ x, (f x).id = x.id) (game_id : Nat) :
    (DB.mk db.users db.teams db.players (db.games.map f) db.events
      db.player_game_stats db.next_event_id).findGame game_id
      = (db.findGame game_id).map f := by
  simpa [DB.findGame] using find?_game_map db.games f hid game_id

/-- Fixture for claim C9: an `in_progress` game with its timeout flag set,
created by user 9, who is therefore authorized to manage the timeout. -/
def dbC9 : DB :=
  ⟨[9], [⟨1, some 9⟩, ⟨2, some 8⟩], [],
   [⟨1, 1, 2, 0, 0, "in_progress", some 9, true, true, false⟩], [], [], 1⟩

/-- Claim C9 (confirmed): while a game's timeout is active, `update_game_score`
fails with the distinct 403 detail `"Scoring is disabled during timeout"` and
produces no new store (the stored scores are unchanged); after the game admin
revokes the timeout through `manage_game_timeout`, the same score update
succeeds immediately and the stored scores become the requested ones. -/
theorem claim_C9 :
    ∀ db game_id g uid sd,
      db.findGame game_id = some g →
      g.timeout_active = true →
      g.created_by = some uid → uid ≠ 0 →
      update_game_score db game_id sd
        = .error (.httpError 403 "Scoring is disabled during timeout")
      ∧ ∃ db₁, manage_game_timeout db game_id (some "revoke") uid = .ok db₁
          ∧ ∃ db₂, update_game_score db₁ game_id sd = .ok db₂
              ∧ ∃ g₂, db₂.findGame game_id = some g₂
                  ∧ g₂.home_score = sd.home_score
                  ∧ g₂.away_score = sd.away_score := by
  intro db game_id g uid sd hg ht hc hu
  have hadm : isGameAdmin db g uid = true := by
    simp [isGameAdmin, hc, hu]
  have hgid : g.id = game_id := by
    have := List.find?_some hg
    simpa using this
  constructor
  · simp [update_game_score, hg, ht]
  · set f1 : Game → Game := fun x =>
      if x.id = game_id then
        { x with timeout_active := false, timeout_started_stamped := false }
      else x with hf1
    have hid1 : ∀ x : Game, (f1 x).id = x.id := by
      intro x
      by_cases h : x.id = game_id <;> simp [hf1, h]
    have hfind1 : ({ db with games := db.games.map f1 } : DB).findGame game_id
        = some { g with timeout_active := false, timeout_started_stamped := false } := by
      rw [show ({ db with games := db.games.map f1 } : DB)
          = DB.mk db.users db.teams db.players (db.games.map f1) db.events
              db.player_game_stats db.next_event_id from rfl,
        findGame_map_update db f1 hid1 game_id, hg]
      simp [hf1, hgid]
    set f2 : Game → Game := fun x =>
      if x.id = game_id then
        { x with home_score := sd.home_score, away_score := sd.away_score }
      else x with hf2
    have hid2 : ∀ x : Game, (f2 x).id = x.id := by
      intro x
      by_cases h : x.id = game_id <;> simp [hf2, h]
    have hfind2 : ({ db with games := (db.games.map f1).map f2 } : DB).findGame game_id
        = some (f2 { g with timeout_active := false, timeout_started_stamped := false }) := by
      have := findGame_map_update { db with games := db.games.map f1 } f2 hid2 game_id
      rw [hfind1] at this
      simpa using this
    refine ⟨{ db with games := db.games.map f1 }, ?_,
      { db with games := (db.games.map f1).map f2 }, ?_,
      f2 { g with timeout_active := false, timeout_started_stamped := false },
      hfind2, ?_, ?_⟩
    · simp [manage_game_timeout, hg, hadm, hf1]
    · simp [update_game_score, GameService.update_match_score, hfind1]
    · simp [hf2, hgid]
    · simp [hf2, hgid]

/-- Witness for claim C9 at a concrete timed-out game, with the game creator
revoking the timeout and the update succeeding with scores 10 and 8. -/
theorem claim_C9_witness :
    update_game_score dbC9 1 ⟨10, 8⟩
      = .error (.httpError 403 "Scoring is disabled during timeout")
    ∧ ∃ db₁, manage_game_timeout dbC9 1 (some "revoke") 9 = .ok db₁
        ∧ ∃ db₂, update_game_score db₁ 1 ⟨10, 8⟩ = .ok db₂
            ∧ ∃ g₂, db₂.findGame 1 = some g₂
                ∧ g₂.home_score = 10 ∧ g₂.away_score = 8 :=
  claim_C9 dbC9 1 ⟨1, 1, 2, 0, 0, "in_progress", some 9, true, true, false⟩ 9
    ⟨10, 8⟩ (by decide) (by decide) (by decide) (by decide)

/-- Claim C7 (confirmed): shooting percentages are the exact ratio times 100
rounded (`calculate_percentage` lands within half of its last retained decimal
of `made/attempted × 100`), are exactly `0` when attempts are `0`, and the
career aggregate of `GameService.get_player_stats` is exactly `0` for any
player whose persisted rows carry zero total attempts — including a player
with no rows at all.  Every branch is total: no division error exists. -/
theorem claim_C7 :
    (∀ made : Nat, StatsCalculationService.calculate_percentage made 0 = 0)
    ∧ (∀ made attempts : Nat, attempts ≠ 0 →
        |StatsCalculationService.calculate_percentage made attempts
          - (made : ℚ) / attempts * 100| ≤ 1 / 20)
    ∧ (∀ db player_id, player_id ∈ db.users →
        ((db.player_game_stats.filter (fun r => r.1.1 = player_id)).map
          (fun r => r.2.shots_attempted)).sum = 0 →
        ∃ c, GameService.get_player_stats db player_id = .ok c
          ∧ c.career_shooting_percentage = 0) := by
  refine ⟨?_, ?_, ?_⟩
  · intro made
    simp [StatsCalculationService.calculate_percentage]
  · intro made attempts h
    rw [StatsCalculationService.calculate_percentage, if_neg h]
    have hr := abs_sub_round (((made : ℚ) / attempts * 100) * 10)
    have hr' : |((round (((made : ℚ) / attempts * 100) * 10) : ℤ) : ℚ)
        - ((made : ℚ) / attempts * 100) * 10| ≤ 1 / 2 := by
      rw [abs_sub_comm]
      exact hr
    have heq : ((round (((made : ℚ) / attempts * 100) * 10) : ℤ) : ℚ) / 10
        - (made : ℚ) / attempts * 100
        = ((round (((made : ℚ) / attempts * 100) * 10) : ℤ)
            - ((made : ℚ) / attempts * 100) * 10) / 10 := by
      ring
    rw [heq, abs_div]
    rw [show |(10 : ℚ)| = 10 by norm_num]
    calc |((round (((made : ℚ) / attempts * 100) * 10) : ℤ) : ℚ)
            - ((made : ℚ) / attempts * 100) * 10| / 10
        ≤ (1 / 2) / 10 := by gcongr
      _ = 1 / 20 := by norm_num
  · intro db player_id hu hz
    rw [GameService.get_player_stats, if_neg (by simpa using hu)]
    by_cases hrows :
        (db.player_game_stats.filter (fun r => r.1.1 = player_id)).map
          (fun r => r.2) = []
    · rw [if_pos hrows]
      exact ⟨_, rfl, rfl⟩
    · rw [if_neg hrows]
      refine ⟨_, rfl, ?_⟩
      have hatt : (((db.player_game_stats.filter (fun r => r.1.1 = player_id)).map
          (fun r => r.2)).map (fun s => s.shots_attempted)).sum = 0 := by
        rw [List.map_map]
        exact hz
      simp only [hatt]
      norm_num

/-- Fixture for claim C7: one persisted all-zero `PlayerGameStats` row for
user 4 — a player with games on record but zero shot attempts. -/
def dbC7 : DB := ⟨[4], [], [], [], [], [((4, 1), statsInit)], 1⟩

/-- Witness for claim C7: the zero-attempt branch at 3/0, the rounding bound
at 1 of 2, and a concrete zero-attempt career aggregate. -/
theorem claim_C7_witness :
    StatsCalculationService.calculate_percentage 3 0 = 0
    ∧ |StatsCalculationService.calculate_percentage 1 2
        - ((1 : ℕ) : ℚ) / ((2 : ℕ) : ℚ) * 100| ≤ 1 / 20
    ∧ ∃ c, GameService.get_player_stats dbC7 4 = .ok c
        ∧ c.career_shooting_percentage = 0 :=
  ⟨claim_C7.1 3, claim_C7.2.1 1 2 (by decide),
   claim_C7.2.2 dbC7 4 (by decide) (by decide)⟩

/-- Claim C5 (confirmed): `finalize_game` is idempotent at the level of the
whole store (timestamp columns abstracted): a second run on the result of a
first run recomputes every counter from the same full event set and
overwrites each existing `(player, game)` row with identical values, leaving
the store — in particular every `PlayerGameStats` row — unchanged. -/
theorem claim_C5 :
    ∀ db game_id db₁, GameService.finalize_game db game_id = .ok db₁ →
      GameService.finalize_game db₁ game_id = .ok db₁ := by
  intro db game_id db₁ h
  cases hg : db.findGame game_id with
  | none =>
    rw [GameService.finalize_game, hg] at h
    exact absurd h (by simp)
  | some g =>
    rw [GameService.finalize_game, hg] at h
    simp only [Except.ok.injEq] at h
    subst h
    set fin : Game → Game := fun x =>
      if x.id = game_id then { x with status := "completed", ended_stamped := true }
      else x with hfin
    set ps : List (Nat × PStats) := buildPlayerStats [] (db.gameEvents game_id)
      with hps
    set P1 : List ((Nat × Nat) × PStats) :=
      ps.foldl (fun store r => upsertA store (r.1, game_id) r.2) db.player_game_stats
      with hP1
    have hnd : (ps.map Prod.fst).Nodup := by
      rw [hps]
      exact buildPlayerStats_keys_nodup _ [] (by simp)
    have hfix : ∀ r ∈ ps, lookupA P1 (r.1, game_id) = some r.2 := by
      intro r hr
      obtain ⟨u, s⟩ := r
      rw [hP1]
      exact lookupA_foldUpsert_mem ps db.player_game_stats game_id u s hnd hr
    have hpgs : ps.foldl (fun store r => upsertA store (r.1, game_id) r.2) P1 = P1 :=
      foldUpsert_fixpoint ps P1 game_id hfix
    have hidem : ∀ x : Game, fin (fin x) = fin x := by
      intro x
      by_cases hx : x.id = game_id <;> simp [hfin, hx]
    have hgames : (db.games.map fin).map fin = db.games.map fin :=
      map_idem_of_idem fin hidem db.games
    have hfindR : ({ db with
        player_game_stats := P1
        games := db.games.map fin } : DB).findGame game_id = some (fin g) := by
      simp only [DB.findGame]
      rw [find?_game_map db.games fin
        (fun x => by by_cases hx : x.id = game_id <;> simp [hfin, hx]) game_id]
      rw [show db.games.find? (fun g => g.id = game_id) = some g from hg]
      rfl
    rw [GameService.finalize_game, hfindR]
    simp only [Except.ok.injEq, DB.mk.injEq, and_true, true_and]
    exact ⟨hgames, hpgs⟩

/-- Fixture for claim C5: an `in_progress` game with a made two-pointer and a
missed free throw by user 7. -/
def dbC5 : DB :=
  ⟨[7, 9], [⟨1, some 9⟩, ⟨2, some 8⟩], [⟨7, 1⟩],
   [⟨1, 1, 2, 0, 0, "in_progress", some 9, false, false, false⟩],
   [⟨1, 1, some 7, 1, "2PT", 1, some 10, some "made"⟩,
    ⟨2, 1, some 7, 1, "FT", 1, some 20, some "miss"⟩], [], 3⟩

/-- The store produced by the first finalization of `dbC5`. -/
def dbC5fin : DB :=
  ⟨[7, 9], [⟨1, some 9⟩, ⟨2, some 8⟩], [⟨7, 1⟩],
   [⟨1, 1, 2, 0, 0, "completed", some 9, false, false, true⟩],
   [⟨1, 1, some 7, 1, "2PT", 1, some 10, some "made"⟩,
    ⟨2, 1, some 7, 1, "FT", 1, some 20, some "miss"⟩],
   [((7, 1), ⟨2, 0, 0, 0, 0, 1, 1, 1, 1, 0, 0, 0, 1⟩)], 3⟩

/-- Witness for claim C5: re-finalizing the concrete finalized store returns
it unchanged, every `PlayerGameStats` row byte-identical. -/
theorem claim_C5_witness :
    GameService.finalize_game dbC5fin 1 = .ok dbC5fin :=
  claim_C5 dbC5 1 dbC5fin (by decide)

theorem mem_of_lookupA {κ : Type} [DecidableEq κ]
    (l : List (κ × PStats)) (k : κ) (s : PStats)
    (h : lookupA l k = some s) : (k, s) ∈ l := by
  unfold lookupA at h
  cases hf : l.find? (fun r => r.1 = k) with
  | none => rw [hf] at h; simp at h
  | some p =>
    rw [hf] at h
    have h2 : p.2 = s := by simpa using h
    have hk : p.1 = k := by simpa using List.find?_some hf
    have hm := List.mem_of_find?_eq_some hf
    have hp : (k, s) = p := by
      obtain ⟨a, b⟩ := p
      simp only at hk h2
      rw [hk, h2]
    rw [hp]
    exact hm

/-- Claim C4 (amended): `finalize_game` skips every event lacking an acting
user and classifies the remaining events by type — `2PT`/`3PT` increment the
combined and specific shot-attempt buckets (made buckets and 2 or 3 points
only on outcome `made`), `FT` the free-throw buckets (1 point on `made`),
`AST` assists, `REB` rebounds — counts one foul exactly for `FLS` and the
eight `FOUL_` subtypes enumerated in `foul_event_types` (not for every
`FOUL_`-prefixed type), one violation exactly for the two subtypes enumerated
in `violation_event_types` (not for every `VIOLATION_`-prefixed type), and
then sets the game status to `completed` and stamps an end time. -/
theorem claim_C4 :
    ∀ db game_id g, db.findGame game_id = some g →
    ∃ db', GameService.finalize_game db game_id = .ok db'
      ∧ buildPlayerStats [] (db.gameEvents game_id)
          = buildPlayerStats []
              ((db.gameEvents game_id).filter (fun e => e.user_id.isSome))
      ∧ (∀ u, (db.gameEvents game_id).filter (fun e => e.user_id = some u) ≠ [] →
          lookupA db'.player_game_stats (u, game_id) = some
            { points := 2 * ((db.gameEvents game_id).filter
                  (fun e => e.user_id = some u)).countP
                    (fun e => e.event_type = "2PT" ∧ e.outcome = some "made")
                + 3 * ((db.gameEvents game_id).filter
                  (fun e => e.user_id = some u)).countP
                    (fun e => e.event_type = "3PT" ∧ e.outcome = some "made")
                + ((db.gameEvents game_id).filter
                  (fun e => e.user_id = some u)).countP
                    (fun e => e.event_type = "FT" ∧ e.outcome = some "made"),
              assists := ((db.gameEvents game_id).filter
                (fun e => e.user_id = some u)).countP
                  (fun e => e.event_type = "AST"),
              rebounds := ((db.gameEvents game_id).filter
                (fun e => e.user_id = some u)).countP
                  (fun e => e.event_type = "REB"),
              fouls := ((db.gameEvents game_id).filter
                (fun e => e.user_id = some u)).countP
                  (fun e => e.event_type ∈ foul_event_types),
              violations := ((db.gameEvents game_id).filter
                (fun e => e.user_id = some u)).countP
                  (fun e => e.event_type ∈ violation_event_types),
              shots_made := ((db.gameEvents game_id).filter
                (fun e => e.user_id = some u)).countP
                  (fun e => (e.event_type = "2PT" ∨ e.event_type = "3PT")
                    ∧ e.outcome = some "made"),
              shots_attempted := ((db.gameEvents game_id).filter
                (fun e => e.user_id = some u)).countP
                  (fun e => e.event_type = "2PT" ∨ e.event_type = "3PT"),
              two_pointers_made := ((db.gameEvents game_id).filter
                (fun e => e.user_id = some u)).countP
                  (fun e => e.event_type = "2PT" ∧ e.outcome = some "made"),
              two_pointers_attempted := ((db.gameEvents game_id).filter
                (fun e => e.user_id = some u)).countP
                  (fun e => e.event_type = "2PT"),
              three_pointers_made := ((db.gameEvents game_id).filter
                (fun e => e.user_id = some u)).countP
                  (fun e => e.event_type = "3PT" ∧ e.outcome = some "made"),
              three_pointers_attempted := ((db.gameEvents game_id).filter
                (fun e => e.user_id = some u)).countP
                  (fun e => e.event_type = "3PT"),
              free_throws_made := ((db.gameEvents game_id).filter
                (fun e => e.user_id = some u)).countP
                  (fun e => e.event_type = "FT" ∧ e.outcome = some "made"),
              free_throws_attempted := ((db.gameEvents game_id).filter
                (fun e => e.user_id = some u)).countP
                  (fun e => e.event_type = "FT") })
      ∧ (∀ x ∈ db'.games, x.id = game_id →
          x.status = "completed" ∧ x.ended_stamped = true) := by
  intro db game_id g hg
  refine ⟨{ db with
      player_game_stats := (buildPlayerStats [] (db.gameEvents game_id)).foldl
        (fun store r => upsertA store (r.1, game_id) r.2) db.player_game_stats
      games := db.games.map (fun x =>
        if x.id = game_id then { x with status := "completed", ended_stamped := true }
        else x) }, ?_, ?_, ?_, ?_⟩
  · rw [GameService.finalize_game, hg]
  · exact buildPlayerStats_filter [] _
  · intro u hne
    have hlk := buildPlayerStats_lookup (db.gameEvents game_id) [] u
    rw [show lookupA ([] : List (Nat × PStats)) u = none from rfl] at hlk
    simp only [if_neg hne] at hlk
    have hnd : ((buildPlayerStats [] (db.gameEvents game_id)).map Prod.fst).Nodup :=
      buildPlayerStats_keys_nodup _ [] (by simp)
    have hmem := mem_of_lookupA _ u _ hlk
    have hfold := lookupA_foldUpsert_mem
      (buildPlayerStats [] (db.gameEvents game_id)) db.player_game_stats game_id
      u _ hnd hmem
    simp only [DB.player_game_stats] at hfold ⊢
    rw [hfold, foldl_accumEvent_closed]
    simp [statsInit]
  · intro x hx hid
    obtain ⟨y, hy, rfl⟩ := List.mem_map.mp hx
    by_cases hyid : y.id = game_id
    · simp [hyid]
    · rw [if_neg hyid] at hid ⊢
      exact absurd hid hyid

/-- Witness for claim C4 at the concrete `dbC4`: finalize succeeds, the
acting player's row is exactly the computed (all-zero) counter record, and
the game row is completed and end-stamped. -/
theorem claim_C4_witness :
    ∃ db', GameService.finalize_game dbC4 1 = .ok db'
      ∧ lookupA db'.player_game_stats (7, 1) = some statsInit
      ∧ ∀ x ∈ db'.games, x.id = 1 → x.status = "completed" ∧ x.ended_stamped = true := by
  obtain ⟨db', h1, h2, h3, h4⟩ := claim_C4 dbC4 1
    ⟨1, 1, 2, 0, 0, "in_progress", some 9, false, false, false⟩ (by decide)
  refine ⟨db', h1, ?_, h4⟩
  rw [h3 7 (by decide)]
  decide
